import Mathlib

/-!
Verification of the snes9xGC button-mapping matrix and input-normalization
pipeline against its specification.

The mapping registry is embedded from `src/ResetControls_original.cpp`:
`btnmap` is a function from (console scheme, physical controller, slot) to a
raw button code, and `ResetControls` is the sequential composition of the 21
guarded whole-row writes of the source.  The per-frame input helpers are
embedded from `src/tests/unit/test_input.cpp`.
-/

/-- Console scheme indices.  The enum itself lives in the project's `input.h`
(not under `src/`); only distinctness of the values (and that none equals the
`-1` sentinel) is used anywhere below. -/
def CTRL_PAD : Int := 0

/-- Console scheme index of the superscope scheme. -/
def CTRL_SCOPE : Int := 1

/-- Console scheme index of the mouse scheme. -/
def CTRL_MOUSE : Int := 2

/-- Console scheme index of the justifier scheme. -/
def CTRL_JUST : Int := 3

/-- Physical controller indices, from the enum in
`src/tests/unit/test_button_mapping.cpp` (`CTRLR_NONE = -1`, then
`CTRLR_GCPAD, CTRLR_WIIMOTE, CTRLR_NUNCHUK, CTRLR_CLASSIC, CTRLR_WUPC,
CTRLR_WIIDRC`). -/
def CTRLR_GCPAD : Int := 0

/-- Physical controller index of the wiimote. -/
def CTRLR_WIIMOTE : Int := 1

/-- Physical controller index of the nunchuk + wiimote pair. -/
def CTRLR_NUNCHUK : Int := 2

/-- Physical controller index of the classic controller. -/
def CTRLR_CLASSIC : Int := 3

/-- Physical controller index of the Wii U Pro controller. -/
def CTRLR_WUPC : Int := 4

/-- Physical controller index of the Wii U gamepad. -/
def CTRLR_WIIDRC : Int := 5

/- GameCube pad button codes, from libogc `pad.h` (external library header). -/

def PAD_BUTTON_LEFT : Nat := 0x0001
def PAD_BUTTON_RIGHT : Nat := 0x0002
def PAD_BUTTON_DOWN : Nat := 0x0004
def PAD_BUTTON_UP : Nat := 0x0008
def PAD_TRIGGER_Z : Nat := 0x0010
def PAD_TRIGGER_R : Nat := 0x0020
def PAD_TRIGGER_L : Nat := 0x0040
def PAD_BUTTON_A : Nat := 0x0100
def PAD_BUTTON_B : Nat := 0x0200
def PAD_BUTTON_X : Nat := 0x0400
def PAD_BUTTON_Y : Nat := 0x0800
def PAD_BUTTON_START : Nat := 0x1000

/- Wiimote / nunchuk / classic-controller button codes, from libogc
`wpad.h` (external library header). -/

def WPAD_BUTTON_2 : Nat := 0x0001
def WPAD_BUTTON_1 : Nat := 0x0002
def WPAD_BUTTON_B : Nat := 0x0004
def WPAD_BUTTON_A : Nat := 0x0008
def WPAD_BUTTON_MINUS : Nat := 0x0010
def WPAD_BUTTON_LEFT : Nat := 0x0100
def WPAD_BUTTON_RIGHT : Nat := 0x0200
def WPAD_BUTTON_DOWN : Nat := 0x0400
def WPAD_BUTTON_UP : Nat := 0x0800
def WPAD_BUTTON_PLUS : Nat := 0x1000
def WPAD_NUNCHUK_BUTTON_Z : Nat := 0x0001 <<< 16
def WPAD_NUNCHUK_BUTTON_C : Nat := 0x0002 <<< 16
def WPAD_CLASSIC_BUTTON_UP : Nat := 0x0001 <<< 16
def WPAD_CLASSIC_BUTTON_LEFT : Nat := 0x0002 <<< 16
def WPAD_CLASSIC_BUTTON_X : Nat := 0x0008 <<< 16
def WPAD_CLASSIC_BUTTON_A : Nat := 0x0010 <<< 16
def WPAD_CLASSIC_BUTTON_Y : Nat := 0x0020 <<< 16
def WPAD_CLASSIC_BUTTON_B : Nat := 0x0040 <<< 16
def WPAD_CLASSIC_BUTTON_FULL_R : Nat := 0x0200 <<< 16
def WPAD_CLASSIC_BUTTON_PLUS : Nat := 0x0400 <<< 16
def WPAD_CLASSIC_BUTTON_MINUS : Nat := 0x1000 <<< 16
def WPAD_CLASSIC_BUTTON_FULL_L : Nat := 0x2000 <<< 16
def WPAD_CLASSIC_BUTTON_DOWN : Nat := 0x4000 <<< 16
def WPAD_CLASSIC_BUTTON_RIGHT : Nat := 0x8000 <<< 16

/- Wii U gamepad button codes, from libwiidrc `wiidrc.h` (external library
header). -/

def WIIDRC_BUTTON_MINUS : Nat := 0x0004
def WIIDRC_BUTTON_PLUS : Nat := 0x0008
def WIIDRC_BUTTON_R : Nat := 0x0010
def WIIDRC_BUTTON_L : Nat := 0x0020
def WIIDRC_BUTTON_DOWN : Nat := 0x0100
def WIIDRC_BUTTON_UP : Nat := 0x0200
def WIIDRC_BUTTON_RIGHT : Nat := 0x0400
def WIIDRC_BUTTON_LEFT : Nat := 0x0800
def WIIDRC_BUTTON_Y : Nat := 0x1000
def WIIDRC_BUTTON_X : Nat := 0x2000
def WIIDRC_BUTTON_B : Nat := 0x4000
def WIIDRC_BUTTON_A : Nat := 0x8000

/-- State of the `btnmap` array: raw button code at (console scheme, physical
controller, slot). -/
def BtnMap : Type := Int → Int → Nat → Nat

/-- Sequential write `btnmap[c][w][0] = vals[0]; ...; btnmap[c][w][n-1] = vals[n-1]`
of one block of `ResetControls`: slots `0 .. vals.length - 1` of row `(c, w)`
take the block's values, everything else keeps its previous value. -/
def setRow (m : BtnMap) (c w : Int) (vals : List Nat) : BtnMap :=
  fun c2 w2 i => if c2 = c ∧ w2 = w ∧ i < vals.length then vals.getD i 0 else m c2 w2 i

/-- Gamecube controller Padmap block of `ResetControls`. -/
def padGCRow : List Nat :=
  [PAD_BUTTON_A, PAD_BUTTON_B, PAD_BUTTON_X, PAD_BUTTON_Y,
   PAD_TRIGGER_L, PAD_TRIGGER_R, PAD_BUTTON_START, PAD_TRIGGER_Z,
   PAD_BUTTON_UP, PAD_BUTTON_DOWN, PAD_BUTTON_LEFT, PAD_BUTTON_RIGHT]

/-- Wiimote Padmap block of `ResetControls`. -/
def padWMRow : List Nat :=
  [WPAD_BUTTON_B, WPAD_BUTTON_2, WPAD_BUTTON_1, WPAD_BUTTON_A,
   0x0000, 0x0000, WPAD_BUTTON_PLUS, WPAD_BUTTON_MINUS,
   WPAD_BUTTON_RIGHT, WPAD_BUTTON_LEFT, WPAD_BUTTON_UP, WPAD_BUTTON_DOWN]

/-- Classic Controller Padmap block of `ResetControls`. -/
def padCCRow : List Nat :=
  [WPAD_CLASSIC_BUTTON_A, WPAD_CLASSIC_BUTTON_B, WPAD_CLASSIC_BUTTON_X,
   WPAD_CLASSIC_BUTTON_Y, WPAD_CLASSIC_BUTTON_FULL_L, WPAD_CLASSIC_BUTTON_FULL_R,
   WPAD_CLASSIC_BUTTON_PLUS, WPAD_CLASSIC_BUTTON_MINUS, WPAD_CLASSIC_BUTTON_UP,
   WPAD_CLASSIC_BUTTON_DOWN, WPAD_CLASSIC_BUTTON_LEFT, WPAD_CLASSIC_BUTTON_RIGHT]

/-- Wii U Pro Padmap block of `ResetControls` (same codes as the classic
controller block in the source). -/
def padWUPCRow : List Nat :=
  [WPAD_CLASSIC_BUTTON_A, WPAD_CLASSIC_BUTTON_B, WPAD_CLASSIC_BUTTON_X,
   WPAD_CLASSIC_BUTTON_Y, WPAD_CLASSIC_BUTTON_FULL_L, WPAD_CLASSIC_BUTTON_FULL_R,
   WPAD_CLASSIC_BUTTON_PLUS, WPAD_CLASSIC_BUTTON_MINUS, WPAD_CLASSIC_BUTTON_UP,
   WPAD_CLASSIC_BUTTON_DOWN, WPAD_CLASSIC_BUTTON_LEFT, WPAD_CLASSIC_BUTTON_RIGHT]

/-- Wii U Gamepad Padmap block of `ResetControls`. -/
def padDRCRow : List Nat :=
  [WIIDRC_BUTTON_A, WIIDRC_BUTTON_B, WIIDRC_BUTTON_X, WIIDRC_BUTTON_Y,
   WIIDRC_BUTTON_L, WIIDRC_BUTTON_R, WIIDRC_BUTTON_PLUS, WIIDRC_BUTTON_MINUS,
   WIIDRC_BUTTON_UP, WIIDRC_BUTTON_DOWN, WIIDRC_BUTTON_LEFT, WIIDRC_BUTTON_RIGHT]

/-- Nunchuk + wiimote Padmap block of `ResetControls`. -/
def padNCRow : List Nat :=
  [WPAD_BUTTON_A, WPAD_BUTTON_B, WPAD_NUNCHUK_BUTTON_C, WPAD_NUNCHUK_BUTTON_Z,
   WPAD_BUTTON_2, WPAD_BUTTON_1, WPAD_BUTTON_PLUS, WPAD_BUTTON_MINUS,
   WPAD_BUTTON_UP, WPAD_BUTTON_DOWN, WPAD_BUTTON_LEFT, WPAD_BUTTON_RIGHT]

/-- Superscope : GC controller block of `ResetControls`. -/
def scopeGCRow : List Nat :=
  [PAD_BUTTON_A, PAD_BUTTON_B, PAD_TRIGGER_Z, PAD_BUTTON_Y, PAD_BUTTON_X,
   PAD_BUTTON_START]

/-- Superscope : wiimote block of `ResetControls`. -/
def scopeWMRow : List Nat :=
  [WPAD_BUTTON_B, WPAD_BUTTON_A, WPAD_BUTTON_MINUS, WPAD_BUTTON_UP,
   WPAD_BUTTON_DOWN, WPAD_BUTTON_PLUS]

/-- Superscope : Classic Controller block of `ResetControls`. -/
def scopeCCRow : List Nat :=
  [WPAD_CLASSIC_BUTTON_B, WPAD_CLASSIC_BUTTON_A, WPAD_CLASSIC_BUTTON_MINUS,
   WPAD_CLASSIC_BUTTON_Y, WPAD_CLASSIC_BUTTON_X, WPAD_CLASSIC_BUTTON_PLUS]

/-- Superscope : Wii U Pro Controller block of `ResetControls`. -/
def scopeWUPCRow : List Nat :=
  [WPAD_CLASSIC_BUTTON_B, WPAD_CLASSIC_BUTTON_A, WPAD_CLASSIC_BUTTON_MINUS,
   WPAD_CLASSIC_BUTTON_Y, WPAD_CLASSIC_BUTTON_X, WPAD_CLASSIC_BUTTON_PLUS]

/-- Superscope : Wii U Gamepad block of `ResetControls`. -/
def scopeDRCRow : List Nat :=
  [WIIDRC_BUTTON_B, WIIDRC_BUTTON_A, WIIDRC_BUTTON_MINUS, WIIDRC_BUTTON_Y,
   WIIDRC_BUTTON_X, WIIDRC_BUTTON_PLUS]

/-- Mouse : GC controller block of `ResetControls`. -/
def mouseGCRow : List Nat := [PAD_BUTTON_A, PAD_BUTTON_B]

/-- Mouse : wiimote block of `ResetControls`. -/
def mouseWMRow : List Nat := [WPAD_BUTTON_A, WPAD_BUTTON_B]

/-- Mouse : Classic Controller block of `ResetControls`. -/
def mouseCCRow : List Nat := [WPAD_CLASSIC_BUTTON_A, WPAD_CLASSIC_BUTTON_B]

/-- Mouse : Wii U Pro Controller block of `ResetControls`. -/
def mouseWUPCRow : List Nat := [WPAD_CLASSIC_BUTTON_A, WPAD_CLASSIC_BUTTON_B]

/-- Mouse : Wii U Gamepad block of `ResetControls`. -/
def mouseDRCRow : List Nat := [WIIDRC_BUTTON_A, WIIDRC_BUTTON_B]

/-- Justifier : GC controller block of `ResetControls`. -/
def justGCRow : List Nat := [PAD_BUTTON_B, PAD_BUTTON_A, PAD_BUTTON_START]

/-- Justifier : wiimote block of `ResetControls`. -/
def justWMRow : List Nat := [WPAD_BUTTON_B, WPAD_BUTTON_A, WPAD_BUTTON_PLUS]

/-- Justifier : Classic Controller block of `ResetControls`. -/
def justCCRow : List Nat :=
  [WPAD_CLASSIC_BUTTON_B, WPAD_CLASSIC_BUTTON_A, WPAD_CLASSIC_BUTTON_PLUS]

/-- Justifier : Wii U Pro Controller block of `ResetControls`. -/
def justWUPCRow : List Nat :=
  [WPAD_CLASSIC_BUTTON_B, WPAD_CLASSIC_BUTTON_A, WPAD_CLASSIC_BUTTON_PLUS]

/-- Justifier : Wii U Gamepad block of `ResetControls`. -/
def justDRCRow : List Nat :=
  [WIIDRC_BUTTON_B, WIIDRC_BUTTON_A, WIIDRC_BUTTON_PLUS]

/-- Shallow embedding of `ResetControls(int consoleCtrl, int wiiCtrl)` from
`src/ResetControls_original.cpp`: the 21 guarded row writes of the source, in
source order, each guard transcribed verbatim
(`consoleCtrl == -1 || (consoleCtrl == C && wiiCtrl == W)`). -/
def ResetControls (consoleCtrl wiiCtrl : Int) (m : BtnMap) : BtnMap :=
  let m1 := if consoleCtrl = -1 ∨ (consoleCtrl = CTRL_PAD ∧ wiiCtrl = CTRLR_GCPAD) then
    setRow m CTRL_PAD CTRLR_GCPAD padGCRow else m
  let m2 := if consoleCtrl = -1 ∨ (consoleCtrl = CTRL_PAD ∧ wiiCtrl = CTRLR_WIIMOTE) then
    setRow m1 CTRL_PAD CTRLR_WIIMOTE padWMRow else m1
  let m3 := if consoleCtrl = -1 ∨ (consoleCtrl = CTRL_PAD ∧ wiiCtrl = CTRLR_CLASSIC) then
    setRow m2 CTRL_PAD CTRLR_CLASSIC padCCRow else m2
  let m4 := if consoleCtrl = -1 ∨ (consoleCtrl = CTRL_PAD ∧ wiiCtrl = CTRLR_WUPC) then
    setRow m3 CTRL_PAD CTRLR_WUPC padWUPCRow else m3
  let m5 := if consoleCtrl = -1 ∨ (consoleCtrl = CTRL_PAD ∧ wiiCtrl = CTRLR_WIIDRC) then
    setRow m4 CTRL_PAD CTRLR_WIIDRC padDRCRow else m4
  let m6 := if consoleCtrl = -1 ∨ (consoleCtrl = CTRL_PAD ∧ wiiCtrl = CTRLR_NUNCHUK) then
    setRow m5 CTRL_PAD CTRLR_NUNCHUK padNCRow else m5
  let m7 := if consoleCtrl = -1 ∨ (consoleCtrl = CTRL_SCOPE ∧ wiiCtrl = CTRLR_GCPAD) then
    setRow m6 CTRL_SCOPE CTRLR_GCPAD scopeGCRow else m6
  let m8 := if consoleCtrl = -1 ∨ (consoleCtrl = CTRL_SCOPE ∧ wiiCtrl = CTRLR_WIIMOTE) then
    setRow m7 CTRL_SCOPE CTRLR_WIIMOTE scopeWMRow else m7
  let m9 := if consoleCtrl = -1 ∨ (consoleCtrl = CTRL_SCOPE ∧ wiiCtrl = CTRLR_CLASSIC) then
    setRow m8 CTRL_SCOPE CTRLR_CLASSIC scopeCCRow else m8
  let m10 := if consoleCtrl = -1 ∨ (consoleCtrl = CTRL_SCOPE ∧ wiiCtrl = CTRLR_WUPC) then
    setRow m9 CTRL_SCOPE CTRLR_WUPC scopeWUPCRow else m9
  let m11 := if consoleCtrl = -1 ∨ (consoleCtrl = CTRL_SCOPE ∧ wiiCtrl = CTRLR_WIIDRC) then
    setRow m10 CTRL_SCOPE CTRLR_WIIDRC scopeDRCRow else m10
  let m12 := if consoleCtrl = -1 ∨ (consoleCtrl = CTRL_MOUSE ∧ wiiCtrl = CTRLR_GCPAD) then
    setRow m11 CTRL_MOUSE CTRLR_GCPAD mouseGCRow else m11
  let m13 := if consoleCtrl = -1 ∨ (consoleCtrl = CTRL_MOUSE ∧ wiiCtrl = CTRLR_WIIMOTE) then
    setRow m12 CTRL_MOUSE CTRLR_WIIMOTE mouseWMRow else m12
  let m14 := if consoleCtrl = -1 ∨ (consoleCtrl = CTRL_MOUSE ∧ wiiCtrl = CTRLR_CLASSIC) then
    setRow m13 CTRL_MOUSE CTRLR_CLASSIC mouseCCRow else m13
  let m15 := if consoleCtrl = -1 ∨ (consoleCtrl = CTRL_MOUSE ∧ wiiCtrl = CTRLR_WUPC) then
    setRow m14 CTRL_MOUSE CTRLR_WUPC mouseWUPCRow else m14
  let m16 := if consoleCtrl = -1 ∨ (consoleCtrl = CTRL_MOUSE ∧ wiiCtrl = CTRLR_WIIDRC) then
    setRow m15 CTRL_MOUSE CTRLR_WIIDRC mouseDRCRow else m15
  let m17 := if consoleCtrl = -1 ∨ (consoleCtrl = CTRL_JUST ∧ wiiCtrl = CTRLR_GCPAD) then
    setRow m16 CTRL_JUST CTRLR_GCPAD justGCRow else m16
  let m18 := if consoleCtrl = -1 ∨ (consoleCtrl = CTRL_JUST ∧ wiiCtrl = CTRLR_WIIMOTE) then
    setRow m17 CTRL_JUST CTRLR_WIIMOTE justWMRow else m17
  let m19 := if consoleCtrl = -1 ∨ (consoleCtrl = CTRL_JUST ∧ wiiCtrl = CTRLR_CLASSIC) then
    setRow m18 CTRL_JUST CTRLR_CLASSIC justCCRow else m18
  let m20 := if consoleCtrl = -1 ∨ (consoleCtrl = CTRL_JUST ∧ wiiCtrl = CTRLR_WUPC) then
    setRow m19 CTRL_JUST CTRLR_WUPC justWUPCRow else m19
  let m21 := if consoleCtrl = -1 ∨ (consoleCtrl = CTRL_JUST ∧ wiiCtrl = CTRLR_WIIDRC) then
    setRow m20 CTRL_JUST CTRLR_WIIDRC justDRCRow else m20
  m21

/-- Matrix with every entry zero (C global arrays are zero-initialized). -/
def zeroMap : BtnMap := fun _ _ _ => 0



/- SNES controller button codes, from the enum in
`src/tests/unit/test_input.cpp`. -/

def SNES_B : Nat := 0x8000
def SNES_Y : Nat := 0x4000
def SNES_SELECT : Nat := 0x2000
def SNES_START : Nat := 0x1000
def SNES_UP : Nat := 0x0800
def SNES_DOWN : Nat := 0x0400
def SNES_LEFT : Nat := 0x0200
def SNES_RIGHT : Nat := 0x0100
def SNES_A : Nat := 0x0080
def SNES_X : Nat := 0x0040
def SNES_L : Nat := 0x0020
def SNES_R : Nat := 0x0010

/-- Largest `u32` value; the button bitmasks of the source are `u32`. -/
def u32mask : Nat := 0xFFFFFFFF

/-- The `u32` expression `a & ~b` of the source: bitwise complement is taken
within the 32-bit word, embedded as xor against the all-ones 32-bit mask. -/
def andNot (a b : Nat) : Nat := a &&& (b ^^^ u32mask)

/-- Embedding of `struct ControllerState` from `src/tests/unit/test_input.cpp`
(`u32` fields as `Nat`, `s16` fields as `Int`). -/
structure ControllerState where
  buttons_held : Nat
  buttons_pressed : Nat
  buttons_released : Nat
  stick_x : Int
  stick_y : Int
  connected : Bool
deriving DecidableEq, Repr

/-- Embedding of `TestProcessButtonInput(ControllerState* current,
ControllerState* previous)` from `src/tests/unit/test_input.cpp`.  Pointers
become `Option`; the result carries the C return value together with the
post-call contents of both pointees (`current` is mutated in place by the
source, `previous` never is). -/
def TestProcessButtonInput (current previous : Option ControllerState) :
    Bool × Option ControllerState × Option ControllerState :=
  match current, previous with
  | none, _ => (false, current, previous)
  | _, none => (false, current, previous)
  | some c, some p =>
    (true,
     some { c with
       buttons_pressed := andNot c.buttons_held p.buttons_held
       buttons_released := andNot p.buttons_held c.buttons_held },
     some p)

/-- Embedding of `TestValidateButtonCombo(u32 buttons, u32 required_combo)`
from `src/tests/unit/test_input.cpp`. -/
def TestValidateButtonCombo (buttons required_combo : Nat) : Bool :=
  buttons &&& required_combo == required_combo

/-- Embedding of `TestMapGCButtonToSNES(u32 gc_button)` from
`src/tests/unit/test_input.cpp`; the C `switch` becomes an if-chain. -/
def TestMapGCButtonToSNES (gc_button : Nat) : Nat :=
  if gc_button = 0x0001 then SNES_A
  else if gc_button = 0x0002 then SNES_B
  else if gc_button = 0x0004 then SNES_X
  else if gc_button = 0x0008 then SNES_Y
  else if gc_button = 0x0010 then SNES_L
  else if gc_button = 0x0020 then SNES_R
  else if gc_button = 0x0100 then SNES_START
  else if gc_button = 0x1000 then SNES_UP
  else if gc_button = 0x2000 then SNES_DOWN
  else if gc_button = 0x4000 then SNES_LEFT
  else if gc_button = 0x8000 then SNES_RIGHT
  else 0

/-- The source codes handled by the `switch` of `TestMapGCButtonToSNES`. -/
def gcDefinedCodes : List Nat :=
  [0x0001, 0x0002, 0x0004, 0x0008, 0x0010, 0x0020, 0x0100, 0x1000, 0x2000,
   0x4000, 0x8000]

/-- Embedding of `TestStickToDigital(s16 x, s16 y, s16 threshold)` from
`src/tests/unit/test_input.cpp`: the four `|=` updates of `digital`, in source
order. -/
def TestStickToDigital (x y threshold : Int) : Nat :=
  let digital : Nat := 0
  let digital := if x < -threshold then digital ||| SNES_LEFT else digital
  let digital := if x > threshold then digital ||| SNES_RIGHT else digital
  let digital := if y < -threshold then digital ||| SNES_DOWN else digital
  let digital := if y > threshold then digital ||| SNES_UP else digital
  digital

/-- Matrix with every entry `7`, a value that is no button code; used to
observe which entries a rebuild leaves untouched. -/
def map7 : BtnMap := fun _ _ _ => 7

/-- Concrete controller state with all fields zeroed. -/
def cs0 : ControllerState := ⟨0, 0, 0, 0, 0, false⟩

/-- Concrete controller state holding `A | C` (bits 0 and 2). -/
def csAC : ControllerState := ⟨5, 0, 0, 0, 0, true⟩

/-- Concrete controller state holding `A | B` (bits 0 and 1). -/
def csAB : ControllerState := ⟨3, 0, 0, 0, 0, true⟩

/-- The 24 specific (console scheme, physical controller) pairs, neither
argument the `-1` sentinel. -/
def specificPairs : List (Int × Int) :=
  [(CTRL_PAD, CTRLR_GCPAD), (CTRL_PAD, CTRLR_WIIMOTE), (CTRL_PAD, CTRLR_NUNCHUK),
   (CTRL_PAD, CTRLR_CLASSIC), (CTRL_PAD, CTRLR_WUPC), (CTRL_PAD, CTRLR_WIIDRC),
   (CTRL_SCOPE, CTRLR_GCPAD), (CTRL_SCOPE, CTRLR_WIIMOTE), (CTRL_SCOPE, CTRLR_NUNCHUK),
   (CTRL_SCOPE, CTRLR_CLASSIC), (CTRL_SCOPE, CTRLR_WUPC), (CTRL_SCOPE, CTRLR_WIIDRC),
   (CTRL_MOUSE, CTRLR_GCPAD), (CTRL_MOUSE, CTRLR_WIIMOTE), (CTRL_MOUSE, CTRLR_NUNCHUK),
   (CTRL_MOUSE, CTRLR_CLASSIC), (CTRL_MOUSE, CTRLR_WUPC), (CTRL_MOUSE, CTRLR_WIIDRC),
   (CTRL_JUST, CTRLR_GCPAD), (CTRL_JUST, CTRLR_WIIMOTE), (CTRL_JUST, CTRLR_NUNCHUK),
   (CTRL_JUST, CTRLR_CLASSIC), (CTRL_JUST, CTRLR_WUPC), (CTRL_JUST, CTRLR_WIIDRC)]

/-- Logical slot count of each console scheme, from the specification's data
model (Pad 12, Superscope 6, Mouse 2, Justifier 3). -/
def slotCount (c : Int) : Nat :=
  if c = CTRL_PAD then 12
  else if c = CTRL_SCOPE then 6
  else if c = CTRL_MOUSE then 2
  else if c = CTRL_JUST then 3
  else 0

/-- The 21 rows that `ResetControls` actually writes, each with the value
block the source assigns to it. -/
def definedPairRows : List (Int × Int × List Nat) :=
  [(CTRL_PAD, CTRLR_GCPAD, padGCRow), (CTRL_PAD, CTRLR_WIIMOTE, padWMRow),
   (CTRL_PAD, CTRLR_CLASSIC, padCCRow), (CTRL_PAD, CTRLR_WUPC, padWUPCRow),
   (CTRL_PAD, CTRLR_WIIDRC, padDRCRow), (CTRL_PAD, CTRLR_NUNCHUK, padNCRow),
   (CTRL_SCOPE, CTRLR_GCPAD, scopeGCRow), (CTRL_SCOPE, CTRLR_WIIMOTE, scopeWMRow),
   (CTRL_SCOPE, CTRLR_CLASSIC, scopeCCRow), (CTRL_SCOPE, CTRLR_WUPC, scopeWUPCRow),
   (CTRL_SCOPE, CTRLR_WIIDRC, scopeDRCRow), (CTRL_MOUSE, CTRLR_GCPAD, mouseGCRow),
   (CTRL_MOUSE, CTRLR_WIIMOTE, mouseWMRow), (CTRL_MOUSE, CTRLR_CLASSIC, mouseCCRow),
   (CTRL_MOUSE, CTRLR_WUPC, mouseWUPCRow), (CTRL_MOUSE, CTRLR_WIIDRC, mouseDRCRow),
   (CTRL_JUST, CTRLR_GCPAD, justGCRow), (CTRL_JUST, CTRLR_WIIMOTE, justWMRow),
   (CTRL_JUST, CTRLR_CLASSIC, justCCRow), (CTRL_JUST, CTRLR_WUPC, justWUPCRow),
   (CTRL_JUST, CTRLR_WIIDRC, justDRCRow)]

/-- Entries outside the written prefix of a row, and all other rows, are
untouched by one `setRow` block. -/
theorem setRow_eq_of_ne (m : BtnMap) (c w : Int) (vals : List Nat)
    (c2 w2 : Int) (i : Nat) (h : ¬(c2 = c ∧ w2 = w ∧ i < vals.length)) :
    setRow m c w vals c2 w2 i = m c2 w2 i := by
  simp [setRow, h]

/-- Writing the same block twice is the same as writing it once. -/
theorem setRow_idem (m : BtnMap) (c w : Int) (vals : List Nat)
    (c2 w2 : Int) (i : Nat) :
    setRow (setRow m c w vals) c w vals c2 w2 i = setRow m c w vals c2 w2 i := by
  unfold setRow
  by_cases h : c2 = c ∧ w2 = w ∧ i < vals.length <;> simp [h]

/-- Bit-level semantics of the 32-bit `a & ~b`: for `a` in `u32` range, bit
`i` of `andNot a b` is bit `i` of `a` with bit `i` of `b` cleared. -/
theorem andNot_testBit (a b : Nat) (ha : a ≤ u32mask) (i : Nat) :
    (andNot a b).testBit i = (a.testBit i && ! b.testBit i) := by
  unfold andNot u32mask
  rw [Nat.testBit_land, Nat.testBit_xor]
  by_cases hi : i < 32
  · have hm : (0xFFFFFFFF : Nat).testBit i = true := by
      have h32 : (0xFFFFFFFF : Nat) = 2 ^ 32 - 1 := by norm_num
      rw [h32, Nat.testBit_two_pow_sub_one]
      simpa using hi
    rw [hm]
    cases a.testBit i <;> cases b.testBit i <;> rfl
  · have ha2 : a.testBit i = false := by
      apply Nat.testBit_lt_two_pow
      calc a ≤ 0xFFFFFFFF := by unfold u32mask at ha; omega
        _ < 2 ^ 32 := by norm_num
        _ ≤ 2 ^ i := Nat.pow_le_pow_right (by norm_num) (le_of_not_lt hi)
    simp [ha2]

/-- The expression `a & ~b` never exceeds `a`. -/
theorem andNot_le_left (a b : Nat) : andNot a b ≤ a := by
  unfold andNot
  exact Nat.and_le_left

/-- Clearing nothing changes nothing: `a & ~0 = a` for `a` in `u32` range. -/
theorem andNot_zero (a : Nat) (ha : a ≤ u32mask) : andNot a 0 = a := by
  apply Nat.eq_of_testBit_eq
  intro i
  rw [andNot_testBit a 0 ha i, Nat.zero_testBit]
  cases a.testBit i <;> rfl

/-- Everything cleared from zero is zero. -/
theorem zero_andNot (b : Nat) : andNot 0 b = 0 := by
  unfold andNot
  exact Nat.zero_and _

/-- Press/release edge on two two-button masks sharing one button: the
non-shared current button is the press, the non-shared previous button the
release. -/
theorem andNot_or_or (a b c : Nat) (ha : a < 32) (_hb : b < 32) (hc : c < 32)
    (hab : a ≠ b) (hac : a ≠ c) (hbc : b ≠ c) :
    andNot (2 ^ a ||| 2 ^ c) (2 ^ a ||| 2 ^ b) = 2 ^ c := by
  have hle : (2 ^ a ||| 2 ^ c) ≤ u32mask := by
    have h1 : (2 : Nat) ^ a < 2 ^ 32 :=
      Nat.pow_lt_pow_right (by norm_num) ha
    have h2 : (2 : Nat) ^ c < 2 ^ 32 :=
      Nat.pow_lt_pow_right (by norm_num) hc
    have h3 := Nat.or_lt_two_pow h1 h2
    unfold u32mask
    omega
  apply Nat.eq_of_testBit_eq
  intro i
  rw [andNot_testBit _ _ hle i]
  simp only [Nat.testBit_lor, Nat.testBit_two_pow, Nat.zero_testBit]
  by_cases hia : a = i <;> by_cases hib : b = i <;> by_cases hic : c = i <;>
    simp_all

/-- Press and release sets computed from the same pair of masks are disjoint. -/
theorem andNot_disjoint (x y : Nat) (hx : x ≤ u32mask) (hy : y ≤ u32mask) :
    andNot x y &&& andNot y x = 0 := by
  apply Nat.eq_of_testBit_eq
  intro i
  rw [Nat.testBit_land, andNot_testBit _ _ hx i, andNot_testBit _ _ hy i,
    Nat.zero_testBit]
  cases x.testBit i <;> cases y.testBit i <;> rfl

/-- The press set is contained in the current mask (release set in the
previous mask, instantiating with the arguments swapped). -/
theorem andNot_sub (x y : Nat) (hx : x ≤ u32mask) :
    andNot (andNot x y) x = 0 := by
  have h1 : andNot x y ≤ u32mask := le_trans (andNot_le_left x y) hx
  apply Nat.eq_of_testBit_eq
  intro i
  rw [andNot_testBit _ _ h1 i, andNot_testBit _ _ hx i, Nat.zero_testBit]
  cases x.testBit i <;> cases y.testBit i <;> rfl

/-- C3: for states in `u32` range the edge computation returns success,
leaves `previous` alone, and computes `pressed = current & ~previous` and
`released = previous & ~current` (stated bit by bit); in particular
`previous = 0` gives `pressed = current, released = 0`; `current = 0` gives
`pressed = 0, released = previous`; and `previous = A|B, current = A|C` for
distinct single bits `A, B, C` gives `pressed = C, released = B`. -/
theorem edge_delta_spec (s t : ControllerState)
    (hs : s.buttons_held ≤ u32mask) (ht : t.buttons_held ≤ u32mask) :
    ∃ s2, TestProcessButtonInput (some s) (some t) = (true, some s2, some t)
      ∧ (∀ i, s2.buttons_pressed.testBit i
          = (s.buttons_held.testBit i && ! t.buttons_held.testBit i))
      ∧ (∀ i, s2.buttons_released.testBit i
          = (t.buttons_held.testBit i && ! s.buttons_held.testBit i))
      ∧ (t.buttons_held = 0 →
          s2.buttons_pressed = s.buttons_held ∧ s2.buttons_released = 0)
      ∧ (s.buttons_held = 0 →
          s2.buttons_pressed = 0 ∧ s2.buttons_released = t.buttons_held)
      ∧ (∀ a b c : Nat, a < 32 → b < 32 → c < 32 → a ≠ b → a ≠ c → b ≠ c →
          t.buttons_held = 2 ^ a ||| 2 ^ b → s.buttons_held = 2 ^ a ||| 2 ^ c →
          s2.buttons_pressed = 2 ^ c ∧ s2.buttons_released = 2 ^ b) := by
  refine ⟨_, rfl, ?_, ?_, ?_, ?_, ?_⟩
  · intro i
    exact andNot_testBit _ _ hs i
  · intro i
    exact andNot_testBit _ _ ht i
  · intro h0
    rw [h0]
    exact ⟨andNot_zero _ hs, zero_andNot _⟩
  · intro h0
    rw [h0]
    exact ⟨zero_andNot _, andNot_zero _ ht⟩
  · intro a b c ha hb hc hab hac hbc hT hS
    constructor
    · show andNot s.buttons_held t.buttons_held = 2 ^ c
      rw [hS, hT]
      exact andNot_or_or a b c ha hb hc hab hac hbc
    · show andNot t.buttons_held s.buttons_held = 2 ^ b
      rw [hS, hT]
      exact andNot_or_or a c b ha hc hb hac hab (fun h => hbc h.symm)

/-- Closed instance of `edge_delta_spec` at `previous = A|B`, `current = A|C`
with `A, B, C` the bits `0, 1, 2`. -/
theorem edge_delta_spec_witness :
    ∃ s2, TestProcessButtonInput (some csAC) (some csAB) = (true, some s2, some csAB)
      ∧ (∀ i, s2.buttons_pressed.testBit i
          = (csAC.buttons_held.testBit i && ! csAB.buttons_held.testBit i))
      ∧ (∀ i, s2.buttons_released.testBit i
          = (csAB.buttons_held.testBit i && ! csAC.buttons_held.testBit i))
      ∧ (csAB.buttons_held = 0 →
          s2.buttons_pressed = csAC.buttons_held ∧ s2.buttons_released = 0)
      ∧ (csAC.buttons_held = 0 →
          s2.buttons_pressed = 0 ∧ s2.buttons_released = csAB.buttons_held)
      ∧ (∀ a b c : Nat, a < 32 → b < 32 → c < 32 → a ≠ b → a ≠ c → b ≠ c →
          csAB.buttons_held = 2 ^ a ||| 2 ^ b → csAC.buttons_held = 2 ^ a ||| 2 ^ c →
          s2.buttons_pressed = 2 ^ c ∧ s2.buttons_released = 2 ^ b) :=
  edge_delta_spec csAC csAB (by decide) (by decide)

/-- C6: a missing current or previous state reference makes the edge
computation fail closed: it returns `false` and both states are exactly as
they were passed in, with no partial write. -/
theorem null_state_fails_closed (current previous : Option ControllerState)
    (h : current = none ∨ previous = none) :
    TestProcessButtonInput current previous = (false, current, previous) := by
  rcases h with h | h
  · subst h
    cases previous <;> rfl
  · subst h
    cases current <;> rfl

/-- Closed instance of `null_state_fails_closed` with a missing current
state. -/
theorem null_state_fails_closed_witness :
    TestProcessButtonInput none (some cs0) = (false, none, some cs0) :=
  null_state_fails_closed none (some cs0) (Or.inl rfl)

/-- C10: the edge outputs are disjoint (`pressed & released = 0`), the press
set is contained in the current mask (`pressed & ~current = 0`), and the
release set is contained in the previous mask (`released & ~previous = 0`). -/
theorem edge_delta_disjoint (s t : ControllerState)
    (hs : s.buttons_held ≤ u32mask) (ht : t.buttons_held ≤ u32mask) :
    ∃ s2, TestProcessButtonInput (some s) (some t) = (true, some s2, some t)
      ∧ s2.buttons_pressed &&& s2.buttons_released = 0
      ∧ andNot s2.buttons_pressed s.buttons_held = 0
      ∧ andNot s2.buttons_released t.buttons_held = 0 :=
  ⟨_, rfl, andNot_disjoint _ _ hs ht, andNot_sub _ _ hs, andNot_sub _ _ ht⟩

/-- Closed instance of `edge_delta_disjoint` at `previous = A|B`,
`current = A|C`. -/
theorem edge_delta_disjoint_witness :
    ∃ s2, TestProcessButtonInput (some csAC) (some csAB) = (true, some s2, some csAB)
      ∧ s2.buttons_pressed &&& s2.buttons_released = 0
      ∧ andNot s2.buttons_pressed csAC.buttons_held = 0
      ∧ andNot s2.buttons_released csAB.buttons_held = 0 :=
  edge_delta_disjoint csAC csAB (by decide) (by decide)

/-- C8: the combo validator accepts held masks exactly when they contain the
required mask, so it accepts supersets; on `held = L|R|Start` it accepts
`L|R`, rejects `A|B`, and accepts `L|R|Start`. -/
theorem combo_validator_spec :
    (∀ held required : Nat,
      TestValidateButtonCombo held required = true ↔ held &&& required = required)
    ∧ TestValidateButtonCombo (SNES_L ||| SNES_R ||| SNES_START) (SNES_L ||| SNES_R) = true
    ∧ TestValidateButtonCombo (SNES_L ||| SNES_R ||| SNES_START) (SNES_A ||| SNES_B) = false
    ∧ TestValidateButtonCombo (SNES_L ||| SNES_R ||| SNES_START)
        (SNES_L ||| SNES_R ||| SNES_START) = true := by
  refine ⟨?_, by decide, by decide, by decide⟩
  intro held required
  simp [TestValidateButtonCombo]

/-- C9: every source code outside the table's defined set maps to 0, and every
defined source code maps to a non-zero destination (so 0 never aliases a real
destination button; determinism is immediate since the table is a function). -/
theorem remap_table_spec :
    (∀ s : Nat, s ∉ gcDefinedCodes → TestMapGCButtonToSNES s = 0)
    ∧ (∀ s : Nat, s ∈ gcDefinedCodes → TestMapGCButtonToSNES s ≠ 0) := by
  constructor
  · intro s hs
    simp only [gcDefinedCodes, List.mem_cons, List.not_mem_nil, or_false] at hs
    push_neg at hs
    obtain ⟨n1, n2, n3, n4, n5, n6, n7, n8, n9, n10, n11⟩ := hs
    simp only [TestMapGCButtonToSNES, n1, n2, n3, n4, n5, n6, n7, n8, n9, n10,
      n11, if_false]
  · intro s hs
    fin_cases hs <;> decide

/-- Closed instance of `remap_table_spec` at the undefined code `0x9999` and
the defined code `0x0001`. -/
theorem remap_table_spec_witness :
    TestMapGCButtonToSNES 0x9999 = 0 ∧ TestMapGCButtonToSNES 0x0001 ≠ 0 :=
  ⟨remap_table_spec.1 0x9999 (by decide), remap_table_spec.2 0x0001 (by decide)⟩

/-- C7: the analog-to-digital conversion sets the Left bit iff `x < -threshold`,
the Right bit iff `x > threshold`, the Down bit iff `y < -threshold`, the Up
bit iff `y > threshold`, and no bit outside those four; the listed concrete
cases evaluate as the specification states. -/
theorem stick_to_digital_spec :
    (∀ x y t : Int,
      ((TestStickToDigital x y t &&& SNES_LEFT ≠ 0) ↔ x < -t)
      ∧ ((TestStickToDigital x y t &&& SNES_RIGHT ≠ 0) ↔ x > t)
      ∧ ((TestStickToDigital x y t &&& SNES_DOWN ≠ 0) ↔ y < -t)
      ∧ ((TestStickToDigital x y t &&& SNES_UP ≠ 0) ↔ y > t)
      ∧ TestStickToDigital x y t &&& (0x0F00 ^^^ u32mask) = 0)
    ∧ TestStickToDigital (-60) 0 50 = SNES_LEFT
    ∧ TestStickToDigital 60 60 50 = SNES_RIGHT ||| SNES_UP
    ∧ TestStickToDigital 10 (-10) 50 = 0 := by
  refine ⟨?_, by decide, by decide, by decide⟩
  intro x y t
  by_cases h1 : x < -t <;> by_cases h2 : x > t <;> by_cases h3 : y < -t <;>
    by_cases h4 : y > t <;>
    simp only [TestStickToDigital, h1, h2, h3, h4, if_true, if_false] <;>
    refine ⟨?_, ?_, ?_, ?_, by decide⟩ <;> simp [h1, h2, h3, h4] <;> decide

/-- C1 counterexample: `ResetControls(CTRL_PAD, -1)` — rebuild (Pad, ALL) — does
not rebuild the (Pad, GCPad) row: starting from the zero matrix, slot 0 of that
row is still 0 afterwards instead of its canonical default `PAD_BUTTON_A`.  No
guard of the source ever tests `wiiCtrl == -1`, so the call writes nothing. -/
theorem rebuild_console_all_cex :
    ResetControls CTRL_PAD (-1) zeroMap CTRL_PAD CTRLR_GCPAD 0 ≠ PAD_BUTTON_A := by
  decide

/-- C1 (amended): calling `ResetControls(consoleType, -1)` with a non-sentinel
console type is a no-op — every entry of the matrix is unchanged, because each
guard requires either `consoleCtrl == -1` or an exact physical-controller
match, and `-1` matches no physical controller. -/
theorem rebuild_console_all_noop (consoleCtrl : Int) (m : BtnMap)
    (h : consoleCtrl ≠ -1) (c w : Int) (i : Nat) :
    ResetControls consoleCtrl (-1) m c w i = m c w i := by
  unfold ResetControls
  simp [h, CTRLR_GCPAD, CTRLR_WIIMOTE, CTRLR_NUNCHUK, CTRLR_CLASSIC,
    CTRLR_WUPC, CTRLR_WIIDRC]

/-- Closed instance of `rebuild_console_all_noop` at `consoleCtrl = CTRL_PAD`
on the all-7 matrix. -/
theorem rebuild_console_all_noop_witness :
    ResetControls CTRL_PAD (-1) map7 CTRL_PAD CTRLR_GCPAD 0
      = map7 CTRL_PAD CTRLR_GCPAD 0 :=
  rebuild_console_all_noop CTRL_PAD map7 (by decide) CTRL_PAD CTRLR_GCPAD 0

/-- C2: `ResetControls(CTRL_PAD, CTRLR_WIIMOTE)` touches nothing outside the
(Pad, Wiimote) row: every entry of every other row keeps its previous value,
for any starting matrix. -/
theorem rebuild_pad_wiimote_isolated (m : BtnMap) (c w : Int) (i : Nat)
    (h : ¬(c = CTRL_PAD ∧ w = CTRLR_WIIMOTE)) :
    ResetControls CTRL_PAD CTRLR_WIIMOTE m c w i = m c w i := by
  unfold ResetControls
  simp [CTRL_PAD, CTRL_SCOPE, CTRL_MOUSE, CTRL_JUST, CTRLR_GCPAD,
    CTRLR_WIIMOTE, CTRLR_NUNCHUK, CTRLR_CLASSIC, CTRLR_WUPC, CTRLR_WIIDRC]
  rw [setRow]
  simp [CTRL_PAD, CTRLR_WIIMOTE]
  intro hc hw
  exact absurd ⟨by simp [CTRL_PAD, hc], by simp [CTRLR_WIIMOTE, hw]⟩ h

/-- Closed instance of `rebuild_pad_wiimote_isolated`: the (Scope, GCPad) row
of the all-7 matrix is untouched by a (Pad, Wiimote) rebuild. -/
theorem rebuild_pad_wiimote_isolated_witness :
    ResetControls CTRL_PAD CTRLR_WIIMOTE map7 CTRL_SCOPE CTRLR_GCPAD 0
      = map7 CTRL_SCOPE CTRLR_GCPAD 0 :=
  rebuild_pad_wiimote_isolated map7 CTRL_SCOPE CTRLR_GCPAD 0 (by decide)

/-- C5: rebuilding any specific (console scheme, physical controller) pair
twice leaves every entry of the matrix — in particular the rebuilt row —
identical to its value after the first rebuild. -/
theorem rebuild_idempotent (m : BtnMap) (p : Int × Int)
    (hp : p ∈ specificPairs) (c w : Int) (i : Nat) :
    ResetControls p.1 p.2 (ResetControls p.1 p.2 m) c w i
      = ResetControls p.1 p.2 m c w i := by
  fin_cases hp <;>
    simp [ResetControls, setRow_idem, CTRL_PAD, CTRL_SCOPE, CTRL_MOUSE,
      CTRL_JUST, CTRLR_GCPAD, CTRLR_WIIMOTE, CTRLR_NUNCHUK, CTRLR_CLASSIC,
      CTRLR_WUPC, CTRLR_WIIDRC]

/-- Closed instance of `rebuild_idempotent` at the (Pad, Wiimote) pair on the
all-7 matrix. -/
theorem rebuild_idempotent_witness :
    ResetControls CTRL_PAD CTRLR_WIIMOTE (ResetControls CTRL_PAD CTRLR_WIIMOTE map7)
        CTRL_PAD CTRLR_WIIMOTE 0
      = ResetControls CTRL_PAD CTRLR_WIIMOTE map7 CTRL_PAD CTRLR_WIIMOTE 0 :=
  rebuild_idempotent map7 (CTRL_PAD, CTRLR_WIIMOTE) (by decide)
    CTRL_PAD CTRLR_WIIMOTE 0

/-- C4 counterexample: the full rebuild never writes the (Superscope, Nunchuk)
row (nor the Mouse/Justifier Nunchuk rows): after `ResetControls(-1, -1)` that
row still holds whatever it held before — 7 from the all-7 matrix, 0 from the
zero matrix — so it is not populated by the rebuild, against the claim that
every (consoleType, physicalType) row is. -/
theorem full_rebuild_nunchuk_cex :
    ResetControls (-1) (-1) map7 CTRL_SCOPE CTRLR_NUNCHUK 0 = 7
    ∧ ResetControls (-1) (-1) zeroMap CTRL_SCOPE CTRLR_NUNCHUK 0 = 0 :=
  ⟨by decide, by decide⟩

/-- C4 (amended): after a full rebuild, each of the 21 rows the source
defines holds its canonical block on slots `0 .. slotCount - 1`, each block
has exactly `slotCount(consoleType)` entries (12/6/2/3), and the (Pad,
Wiimote) block has exactly two zero (unmapped) slots, all other entries being
non-zero; the Nunchuk rows of the Superscope, Mouse and Justifier schemes are
not rebuilt and keep their previous contents. -/
theorem full_rebuild_populates (m : BtnMap) :
    (∀ e ∈ definedPairRows, (∀ i, i < slotCount e.1 →
        ResetControls (-1) (-1) m e.1 e.2.1 i = e.2.2.getD i 0)
      ∧ e.2.2.length = slotCount e.1)
    ∧ (∀ c ∈ [CTRL_SCOPE, CTRL_MOUSE, CTRL_JUST], ∀ i,
        ResetControls (-1) (-1) m c CTRLR_NUNCHUK i = m c CTRLR_NUNCHUK i)
    ∧ padWMRow.countP (fun v => v == 0) = 2 := by
  refine ⟨?_, ?_, by decide⟩
  · intro e he
    fin_cases he <;>
      refine ⟨fun i hi => ?_, by decide⟩ <;>
      · simp [slotCount, CTRL_PAD, CTRL_SCOPE, CTRL_MOUSE, CTRL_JUST] at hi
        simp [ResetControls, setRow, hi, CTRL_PAD, CTRL_SCOPE, CTRL_MOUSE,
          CTRL_JUST, CTRLR_GCPAD, CTRLR_WIIMOTE, CTRLR_NUNCHUK, CTRLR_CLASSIC,
          CTRLR_WUPC, CTRLR_WIIDRC, padGCRow, padWMRow, padCCRow, padWUPCRow,
          padDRCRow, padNCRow, scopeGCRow, scopeWMRow, scopeCCRow, scopeWUPCRow,
          scopeDRCRow, mouseGCRow, mouseWMRow, mouseCCRow, mouseWUPCRow,
          mouseDRCRow, justGCRow, justWMRow, justCCRow, justWUPCRow, justDRCRow]
  · intro c hc i
    fin_cases hc <;>
      simp [ResetControls, setRow, CTRL_PAD, CTRL_SCOPE, CTRL_MOUSE, CTRL_JUST,
        CTRLR_GCPAD, CTRLR_WIIMOTE, CTRLR_NUNCHUK, CTRLR_CLASSIC, CTRLR_WUPC,
        CTRLR_WIIDRC]

/-- Closed instance of `full_rebuild_populates` on the all-7 matrix: slot 0 of
the rebuilt (Pad, GCPad) row holds its canonical default, while slot 5 of the
never-written (Superscope, Nunchuk) row keeps its prior value. -/
theorem full_rebuild_populates_witness :
    ResetControls (-1) (-1) map7 CTRL_PAD CTRLR_GCPAD 0 = padGCRow.getD 0 0
    ∧ ResetControls (-1) (-1) map7 CTRL_SCOPE CTRLR_NUNCHUK 5
        = map7 CTRL_SCOPE CTRLR_NUNCHUK 5 :=
  ⟨((full_rebuild_populates map7).1 (CTRL_PAD, CTRLR_GCPAD, padGCRow)
      (by decide)).1 0 (by decide),
   (full_rebuild_populates map7).2.1 CTRL_SCOPE (by decide) 5⟩
